import Mathlib

/-!
Verification of the in-memory payments-ledger core: account/transaction
entities (`src/models`), the in-memory repositories (`src/repositories`),
the account service (`src/services/account.py`) and the transfer service
(`src/services/transfer.py`).

Modelling conventions:
- Python `Decimal` amounts and balances are modelled as `ℚ` (exact decimal
  arithmetic: addition, subtraction and comparison are exact on `Decimal`,
  so `ℚ` is faithful for every operation the code performs).
- `created_at` timestamps and the random id generators
  (`Account.generate_id`, `Transaction.generate_id`) are environment inputs:
  generated ids are passed to the operations as explicit arguments.
- Python exceptions are modelled as `Except`-style error results.  The
  `ValueError` raised for negative balances by `Account.__init__` and
  `AccountService` is mapped by `api/routes.py` to the same HTTP 400 class
  as `InvalidAmountException`, so both are modelled as `Err.invalidAmount`.
- Mutation of shared `Account` objects is modelled as updates of the
  repository map at the account's id (the store keys every account by its
  own id, since `save` uses `account.id` as the key).
- The per-account `threading.Lock` objects are modelled separately as a
  trace of lock acquire/release events and, for the two-thread deadlock
  claim, as an explicit interleaving transition system.
-/

namespace SimpleLedger

/-- Error kinds of the core, mirroring `src/exceptions/__init__.py`
(`InvalidAmountException`, `AccountNotFoundException`,
`InsufficientFundsException`); the `ValueError` raised for negative
balances is modelled as `invalidAmount` (both map to HTTP 400). -/
inductive Err where
  | invalidAmount (msg : String)
  | notFound (msg : String)
  | insufficientFunds (msg : String)
deriving DecidableEq

/-- Transaction lifecycle states, mirroring `TransactionStatus` in
`src/models/transaction.py`. -/
inductive TransactionStatus where
  | pending
  | completed
  | failed
deriving DecidableEq

/-- Transfer record, mirroring `Transaction` in `src/models/transaction.py`
(`created_at` omitted: it is an environment timestamp no claim depends on;
the generated id is passed in by the caller). -/
structure Transaction where
  id : String
  from_account_id : String
  to_account_id : String
  amount : ℚ
  status : TransactionStatus
  error_message : Option String
deriving DecidableEq

/-- `Transaction.__init__` from `src/models/transaction.py`: a new record in
`pending` state with no error message (`transaction_id` is the generated id). -/
def Transaction.init (from_account_id to_account_id : String) (amount : ℚ)
    (transaction_id : String) : Transaction :=
  { id := transaction_id, from_account_id := from_account_id,
    to_account_id := to_account_id, amount := amount,
    status := TransactionStatus.pending, error_message := none }

/-- `Transaction.mark_completed` from `src/models/transaction.py`. -/
def Transaction.mark_completed (t : Transaction) : Transaction :=
  { t with status := TransactionStatus.completed }

/-- `Transaction.mark_failed` from `src/models/transaction.py`. -/
def Transaction.mark_failed (t : Transaction) (error_message : String) : Transaction :=
  { t with status := TransactionStatus.failed, error_message := some error_message }

/-- Account entity, mirroring `Account` in `src/models/account.py`
(`created_at` and the `threading.Lock` field are omitted from the data
model; the lock is modelled by the lock-event trace below). -/
structure Account where
  id : String
  balance : ℚ
deriving DecidableEq

/-- `Account.__init__` from `src/models/account.py`: raises `ValueError`
(modelled as `Err.invalidAmount`) on a negative initial balance. -/
def Account.init (account_id : String) (initial_balance : ℚ) : Except Err Account :=
  if initial_balance < 0 then
    Except.error (Err.invalidAmount "Initial balance cannot be negative")
  else
    Except.ok { id := account_id, balance := initial_balance }

/-- `InMemoryAccountRepository` from `src/repositories/account_repository.py`:
a dictionary from account id to the stored (shared) `Account` object. -/
structure InMemoryAccountRepository where
  storage : String → Option Account

/-- `InMemoryAccountRepository.save`: insert-or-overwrite by `account.id`,
returning the very account passed in together with the updated store. -/
def InMemoryAccountRepository.save (repo : InMemoryAccountRepository) (account : Account) :
    Account × InMemoryAccountRepository :=
  (account, ⟨fun k => if k = account.id then some account else repo.storage k⟩)

/-- `InMemoryAccountRepository.find_by_id`: dictionary lookup. -/
def InMemoryAccountRepository.find_by_id (repo : InMemoryAccountRepository)
    (account_id : String) : Option Account :=
  repo.storage account_id

/-- `InMemoryAccountRepository.exists`: key-membership test. -/
def InMemoryAccountRepository.exists (repo : InMemoryAccountRepository)
    (account_id : String) : Bool :=
  (repo.storage account_id).isSome

/-- `InMemoryTransactionRepository` from
`src/repositories/transaction_repository.py`. -/
structure InMemoryTransactionRepository where
  storage : String → Option Transaction

/-- `InMemoryTransactionRepository.save`: insert-or-overwrite by
`transaction.id`, returning the transaction passed in. -/
def InMemoryTransactionRepository.save (repo : InMemoryTransactionRepository)
    (transaction : Transaction) : Transaction × InMemoryTransactionRepository :=
  (transaction, ⟨fun k => if k = transaction.id then some transaction else repo.storage k⟩)

/-- `InMemoryTransactionRepository.find_by_id`: dictionary lookup. -/
def InMemoryTransactionRepository.find_by_id (repo : InMemoryTransactionRepository)
    (transaction_id : String) : Option Transaction :=
  repo.storage transaction_id

/-- The empty account store (fresh `InMemoryAccountRepository()`). -/
def emptyAccountRepo : InMemoryAccountRepository := ⟨fun _ => none⟩

/-- The empty transaction store (fresh `InMemoryTransactionRepository()`). -/
def emptyTransactionRepo : InMemoryTransactionRepository := ⟨fun _ => none⟩

namespace AccountService

/-- `AccountService.create_account` from `src/services/account.py`: reject a
negative initial balance (`ValueError`), then construct the `Account` (whose
constructor re-checks the same condition) under the freshly generated id
`gen_id` and save it. -/
def create_account (arepo : InMemoryAccountRepository) (gen_id : String)
    (initial_balance : ℚ) : Except Err (Account × InMemoryAccountRepository) :=
  if initial_balance < 0 then
    Except.error (Err.invalidAmount "Initial balance cannot be negative")
  else
    match Account.init gen_id initial_balance with
    | Except.error e => Except.error e
    | Except.ok account => Except.ok (arepo.save account)

/-- `AccountService.get_account` from `src/services/account.py`. -/
def get_account (arepo : InMemoryAccountRepository) (account_id : String) :
    Except Err Account :=
  match arepo.find_by_id account_id with
  | none => Except.error (Err.notFound ("Account " ++ account_id ++ " not found"))
  | some account => Except.ok account

/-- `AccountService.account_exists` from `src/services/account.py`. -/
def account_exists (arepo : InMemoryAccountRepository) (account_id : String) : Bool :=
  arepo.exists account_id

/-- `AccountService.update_balance` from `src/services/account.py`: reject a
negative balance, look the account up, set its balance (a mutation of the
shared object, i.e. of the stored entry) and re-save it. -/
def update_balance (arepo : InMemoryAccountRepository) (account_id : String)
    (new_balance : ℚ) : Except Err (Account × InMemoryAccountRepository) :=
  if new_balance < 0 then
    Except.error (Err.invalidAmount "Balance cannot be negative")
  else
    match arepo.find_by_id account_id with
    | none => Except.error (Err.notFound ("Account " ++ account_id ++ " not found"))
    | some account =>
      Except.ok (arepo.save { account with balance := new_balance })

end AccountService

namespace TransferService

/-- `TransferService._execute_transfer` from `src/services/transfer.py`,
state view (the locking is modelled by `execute_transfer_lock_trace`).
Under the locks: if `from_account.balance < amount`, mark the transaction
failed and raise `InsufficientFundsException` (the error carries the marked
transaction object the caller's local variable still references); otherwise
debit the source and credit the destination through the shared objects in
the store.  When `to_account` aliases `from_account` (equal ids) the debit
is visible through the alias before the credit is applied, exactly as for
the two Python attribute mutations on one object. -/
def execute_transfer (arepo : InMemoryAccountRepository)
    (from_account to_account : Account) (amount : ℚ) (transaction : Transaction) :
    Except (Err × Transaction) (Transaction × InMemoryAccountRepository) :=
  if from_account.balance < amount then
    Except.error
      (Err.insufficientFunds ("Account " ++ from_account.id ++ " has insufficient balance"),
       transaction.mark_failed "Insufficient funds")
  else
    let from_balance' := from_account.balance - amount
    let arepo1 : InMemoryAccountRepository :=
      ⟨fun k => if k = from_account.id then
          some { from_account with balance := from_balance' }
        else arepo.storage k⟩
    let to_balance :=
      if to_account.id = from_account.id then from_balance' else to_account.balance
    let arepo2 : InMemoryAccountRepository :=
      ⟨fun k => if k = to_account.id then
          some { to_account with balance := to_balance + amount }
        else arepo1.storage k⟩
    Except.ok (transaction.mark_completed, arepo2)

/-- `TransferService.transfer` from `src/services/transfer.py`.  Returns the
call's outcome (`Except`) together with the account and transaction stores
as they stand when the call returns or raises (Python exceptions leave the
stores as mutated so far; no path mutates before raising).  `txn_id` is the
generated transaction id. -/
def transfer (arepo : InMemoryAccountRepository) (trepo : InMemoryTransactionRepository)
    (txn_id : String) (from_account_id to_account_id : String) (amount : ℚ) :
    Except Err Transaction × InMemoryAccountRepository × InMemoryTransactionRepository :=
  if amount ≤ 0 then
    (Except.error (Err.invalidAmount "Amount must be positive"), arepo, trepo)
  else if from_account_id = to_account_id then
    (Except.error (Err.invalidAmount "Cannot transfer to same account"), arepo, trepo)
  else
    match arepo.find_by_id from_account_id with
    | none =>
      (Except.error (Err.notFound ("Account " ++ from_account_id ++ " not found")), arepo, trepo)
    | some from_account =>
      match arepo.find_by_id to_account_id with
      | none =>
        (Except.error (Err.notFound ("Account " ++ to_account_id ++ " not found")), arepo, trepo)
      | some to_account =>
        let transaction := Transaction.init from_account_id to_account_id amount txn_id
        match execute_transfer arepo from_account to_account amount transaction with
        | Except.error (e, _failed) => (Except.error e, arepo, trepo)
        | Except.ok (transaction', arepo') =>
          let (t, trepo') := trepo.save transaction'
          (Except.ok t, arepo', trepo')

end TransferService

/-- A lock acquire/release event on the lock of the account named by the id,
for the lock-discipline view of `TransferService._execute_transfer`. -/
inductive LockEvent where
  | acquire (account_id : String)
  | release (account_id : String)
deriving DecidableEq

namespace TransferService

/-- Lock-event view of `TransferService._execute_transfer`
(`src/services/transfer.py` lines 90-114): `first_account` is the one with
the smaller id, `second_account` the other; `first_lock.acquire()`, then
inside `try`: `second_lock.acquire()`, then the inner `try` runs the body
(which touches no locks, whether it returns normally or raises — the flag
`body_raises` distinguishes the two exit paths), whose `finally` releases
`second_lock`, and the outer `finally` releases `first_lock`. -/
def execute_transfer_lock_trace (from_account to_account : Account)
    (_body_raises : Bool) : List LockEvent :=
  let first_account := if from_account.id < to_account.id then from_account else to_account
  let second_account := if from_account.id < to_account.id then to_account else from_account
  let body_events : List LockEvent := []
  [LockEvent.acquire first_account.id]
    ++ ([LockEvent.acquire second_account.id] ++ body_events
        ++ [LockEvent.release second_account.id])
    ++ [LockEvent.release first_account.id]

/-- Lock-event view of a whole `TransferService.transfer` call: no path
before `_execute_transfer` touches any lock, so the trace is empty whenever
validation or lookup fails. -/
def transfer_lock_trace (arepo : InMemoryAccountRepository)
    (from_account_id to_account_id : String) (amount : ℚ) (body_raises : Bool) :
    List LockEvent :=
  if amount ≤ 0 then []
  else if from_account_id = to_account_id then []
  else
    match arepo.find_by_id from_account_id with
    | none => []
    | some from_account =>
      match arepo.find_by_id to_account_id with
      | none => []
      | some to_account =>
        execute_transfer_lock_trace from_account to_account body_raises

end TransferService

/-- The multiset (as a list) of locks still held after a list of lock
events, starting from no lock held. -/
def locksHeldAfter (events : List LockEvent) : List String :=
  events.foldl
    (fun held e =>
      match e with
      | LockEvent.acquire account_id => account_id :: held
      | LockEvent.release account_id => held.erase account_id)
    []

/-!
Two-thread interleaving model for the deadlock-freedom claim: two threads
concurrently run `Transfer(A,B,x)` and `Transfer(B,A,y)` on the same pair
of distinct accounts.  By `_execute_transfer`, **both** acquire the lock of
the smaller-id account (`lockA`) first and the other (`lockB`) second, then
release in reverse order.  Each thread's program counter `pc : Fin 5` means:
`0` = about to acquire lockA, `1` = holds lockA, about to acquire lockB,
`2` = holds both, about to release lockB, `3` = holds lockA, about to
release lockA, `4` = finished.  Lock ownership is determined by the pcs:
a thread holds lockA iff its pc ∈ {1,2,3} and lockB iff its pc = 2.
-/

/-- Joint state of the two transferring threads (pair of program counters). -/
abbrev TwoTransferState := Fin 5 × Fin 5

/-- Whether a thread at this pc holds the first (smaller-id) lock. -/
def holdsFirstLock (pc : Fin 5) : Bool :=
  pc.val == 1 || pc.val == 2 || pc.val == 3

/-- Whether a thread at this pc holds the second (larger-id) lock. -/
def holdsSecondLock (pc : Fin 5) : Bool :=
  pc.val == 2

/-- Whether the thread at pc `self` can take its next step while the other
thread is at pc `other`: acquires block while the other thread holds the
wanted lock, releases never block, a finished thread has no step. -/
def threadEnabled (self other : Fin 5) : Bool :=
  if self.val = 0 then !(holdsFirstLock other)
  else if self.val = 1 then !(holdsSecondLock other)
  else if self.val = 2 then true
  else if self.val = 3 then true
  else false

/-- One interleaving step: one of the two threads takes its next enabled
instruction (pc advances by one). -/
def LockStep (s t : TwoTransferState) : Prop :=
  (threadEnabled s.1 s.2 = true ∧ t = (s.1 + 1, s.2)) ∨
  (threadEnabled s.2 s.1 = true ∧ t = (s.1, s.2 + 1))

instance (s t : TwoTransferState) : Decidable (LockStep s t) := by
  unfold LockStep
  infer_instance

/-- Initial state: both transfers about to acquire the first lock. -/
def initState : TwoTransferState := (0, 0)

/-- Final state: both transfer calls have returned (or raised) with all
locks released. -/
def finalState : TwoTransferState := (4, 4)

/-- States reachable from `initState` by interleaving the two threads. -/
def ReachableLockState (s : TwoTransferState) : Prop :=
  Relation.ReflTransGen LockStep initState s

/-- Mutual exclusion on the first lock: at most one thread holds it. -/
def MutexInv (s : TwoTransferState) : Prop :=
  ¬(holdsFirstLock s.1 = true ∧ holdsFirstLock s.2 = true)

instance (s : TwoTransferState) : Decidable (MutexInv s) := by
  unfold MutexInv
  infer_instance

/-!
Sequences of core operations, for the balance non-negativity invariant.
The observable system state between operations is the pair of stores; each
operation is applied with the exception semantics of the code: when a call
raises, the stores are left as mutated so far (no operation mutates before
raising).
-/

/-- The whole-system state observable between operations: the two stores. -/
structure LedgerState where
  arepo : InMemoryAccountRepository
  trepo : InMemoryTransactionRepository

/-- One core operation, with its environment-generated ids as data. -/
inductive CoreOp where
  | createAccount (gen_id : String) (initial_balance : ℚ)
  | getAccount (account_id : String)
  | updateBalance (account_id : String) (new_balance : ℚ)
  | doTransfer (txn_id from_account_id to_account_id : String) (amount : ℚ)

/-- Apply one core operation to the system state (on a raised exception the
state is whatever the call left behind; `get_account` is read-only). -/
def applyOp (st : LedgerState) (op : CoreOp) : LedgerState :=
  match op with
  | CoreOp.createAccount gen_id initial_balance =>
    match AccountService.create_account st.arepo gen_id initial_balance with
    | Except.ok (_, arepo') => ⟨arepo', st.trepo⟩
    | Except.error _ => st
  | CoreOp.getAccount _ => st
  | CoreOp.updateBalance account_id new_balance =>
    match AccountService.update_balance st.arepo account_id new_balance with
    | Except.ok (_, arepo') => ⟨arepo', st.trepo⟩
    | Except.error _ => st
  | CoreOp.doTransfer txn_id from_account_id to_account_id amount =>
    let (_, arepo', trepo') :=
      TransferService.transfer st.arepo st.trepo txn_id from_account_id to_account_id amount
    ⟨arepo', trepo'⟩

/-- Every account stored in the state has a non-negative balance. -/
def NonNeg (st : LedgerState) : Prop :=
  ∀ k acct, st.arepo.storage k = some acct → 0 ≤ acct.balance

/-- The initial, empty system state. -/
def emptyState : LedgerState := ⟨emptyAccountRepo, emptyTransactionRepo⟩

/-- A `Decimal` value with at most 2 fractional digits (scale ≤ 2). -/
def scale2 (q : ℚ) : Prop := (q * 100).den = 1

/-! Concrete stores used to witness the theorems on concrete inputs. -/

/-- Sample account A (id `acc_a`, balance 1000). -/
def sampleA : Account := { id := "acc_a", balance := 1000 }

/-- Sample account B (id `acc_b`, balance 500). -/
def sampleB : Account := { id := "acc_b", balance := 500 }

/-- Account store holding `sampleA` and `sampleB`. -/
def sampleRepoAB : InMemoryAccountRepository :=
  ((emptyAccountRepo.save sampleA).2.save sampleB).2

/-- Account store holding only `sampleA`. -/
def sampleRepoA : InMemoryAccountRepository :=
  (emptyAccountRepo.save sampleA).2

instance (q : ℚ) : Decidable (scale2 q) := by
  unfold scale2
  infer_instance

end SimpleLedger

namespace SimpleLedger

/-! ## Path-evaluation lemmas for `TransferService.transfer` -/

/-- Validation path: a non-positive amount fails immediately, stores
untouched. -/
theorem transfer_nonpositive_amount (arepo : InMemoryAccountRepository)
    (trepo : InMemoryTransactionRepository) (txn_id from_id to_id : String)
    (amount : ℚ) (h0 : amount ≤ 0) :
    TransferService.transfer arepo trepo txn_id from_id to_id amount =
      (Except.error (Err.invalidAmount "Amount must be positive"), arepo, trepo) := by
  unfold TransferService.transfer
  rw [if_pos h0]

/-- Validation path: a self-transfer is rejected, stores untouched. -/
theorem transfer_same_account (arepo : InMemoryAccountRepository)
    (trepo : InMemoryTransactionRepository) (txn_id from_id to_id : String)
    (amount : ℚ) (h0 : ¬ amount ≤ 0) (heq : from_id = to_id) :
    TransferService.transfer arepo trepo txn_id from_id to_id amount =
      (Except.error (Err.invalidAmount "Cannot transfer to same account"), arepo, trepo) := by
  unfold TransferService.transfer
  rw [if_neg h0, if_pos heq]

/-- Lookup path: a missing source account fails, stores untouched. -/
theorem transfer_from_missing (arepo : InMemoryAccountRepository)
    (trepo : InMemoryTransactionRepository) (txn_id from_id to_id : String)
    (amount : ℚ) (h0 : ¬ amount ≤ 0) (hne : from_id ≠ to_id)
    (hf : arepo.find_by_id from_id = none) :
    TransferService.transfer arepo trepo txn_id from_id to_id amount =
      (Except.error (Err.notFound ("Account " ++ from_id ++ " not found")), arepo, trepo) := by
  unfold TransferService.transfer
  rw [if_neg h0, if_neg hne, hf]

/-- Lookup path: a missing destination account fails, stores untouched. -/
theorem transfer_to_missing (arepo : InMemoryAccountRepository)
    (trepo : InMemoryTransactionRepository) (txn_id from_id to_id : String)
    (amount : ℚ) (fa : Account) (h0 : ¬ amount ≤ 0) (hne : from_id ≠ to_id)
    (hf : arepo.find_by_id from_id = some fa) (ht : arepo.find_by_id to_id = none) :
    TransferService.transfer arepo trepo txn_id from_id to_id amount =
      (Except.error (Err.notFound ("Account " ++ to_id ++ " not found")), arepo, trepo) := by
  unfold TransferService.transfer
  rw [if_neg h0, if_neg hne, hf, ht]

/-- Critical-section failure path: with both accounts found and
`balance < amount`, the call fails with `InsufficientFunds` and the stores
are untouched. -/
theorem transfer_insufficient (arepo : InMemoryAccountRepository)
    (trepo : InMemoryTransactionRepository) (txn_id from_id to_id : String)
    (amount : ℚ) (fa ta : Account) (h0 : ¬ amount ≤ 0) (hne : from_id ≠ to_id)
    (hf : arepo.find_by_id from_id = some fa) (ht : arepo.find_by_id to_id = some ta)
    (hb : fa.balance < amount) :
    TransferService.transfer arepo trepo txn_id from_id to_id amount =
      (Except.error (Err.insufficientFunds ("Account " ++ fa.id ++ " has insufficient balance")),
       arepo, trepo) := by
  unfold TransferService.transfer
  rw [if_neg h0, if_neg hne, hf, ht]
  unfold TransferService.execute_transfer
  dsimp only
  rw [if_pos hb]

/-- Commit path, componentwise: with both accounts found and sufficient
funds, the call returns the completed transaction, the account store is the
input store with the debit written at `fa.id` and then the credit at
`ta.id`, and the transaction store has the completed transaction saved. -/
theorem transfer_commit (arepo : InMemoryAccountRepository)
    (trepo : InMemoryTransactionRepository) (txn_id from_id to_id : String)
    (amount : ℚ) (fa ta : Account) (h0 : ¬ amount ≤ 0) (hne : from_id ≠ to_id)
    (hf : arepo.find_by_id from_id = some fa) (ht : arepo.find_by_id to_id = some ta)
    (hb : ¬ fa.balance < amount) :
    (TransferService.transfer arepo trepo txn_id from_id to_id amount).1 =
      Except.ok ((Transaction.init from_id to_id amount txn_id).mark_completed) ∧
    (∀ k, (TransferService.transfer arepo trepo txn_id from_id to_id amount).2.1.storage k =
      if k = ta.id then
        some { ta with balance :=
          (if ta.id = fa.id then fa.balance - amount else ta.balance) + amount }
      else if k = fa.id then some { fa with balance := fa.balance - amount }
      else arepo.storage k) ∧
    (TransferService.transfer arepo trepo txn_id from_id to_id amount).2.2 =
      (trepo.save ((Transaction.init from_id to_id amount txn_id).mark_completed)).2 := by
  unfold TransferService.transfer
  rw [if_neg h0, if_neg hne, hf, ht]
  unfold TransferService.execute_transfer
  dsimp only
  rw [if_neg hb]
  refine ⟨rfl, fun k => rfl, rfl⟩

/-! ## Claim theorems -/

/-- C1: every `TransferService.transfer` call that returns a completed
transaction on two distinct stored accounts debits the source by exactly
`amount`, credits the destination by exactly `amount`, and conserves the sum
of the two balances. -/
theorem transfer_conservation (arepo : InMemoryAccountRepository)
    (trepo : InMemoryTransactionRepository) (txn_id from_id to_id : String)
    (amount : ℚ) (fa ta : Account) (txn : Transaction)
    (hne : from_id ≠ to_id)
    (hf : arepo.find_by_id from_id = some fa) (hfid : fa.id = from_id)
    (ht : arepo.find_by_id to_id = some ta) (htid : ta.id = to_id)
    (hok : (TransferService.transfer arepo trepo txn_id from_id to_id amount).1 =
      Except.ok txn) :
    txn.status = TransactionStatus.completed ∧
    ∃ fa' ta' : Account,
      (TransferService.transfer arepo trepo txn_id from_id to_id amount).2.1.find_by_id
        from_id = some fa' ∧
      (TransferService.transfer arepo trepo txn_id from_id to_id amount).2.1.find_by_id
        to_id = some ta' ∧
      fa'.balance = fa.balance - amount ∧
      ta'.balance = ta.balance + amount ∧
      fa'.balance + ta'.balance = fa.balance + ta.balance := by
  have h0 : ¬ amount ≤ 0 := by
    intro hle
    rw [transfer_nonpositive_amount arepo trepo txn_id from_id to_id amount hle] at hok
    exact Except.noConfusion hok
  have hb : ¬ fa.balance < amount := by
    intro hlt
    rw [transfer_insufficient arepo trepo txn_id from_id to_id amount fa ta h0 hne hf ht hlt]
      at hok
    exact Except.noConfusion hok
  obtain ⟨h1, h2, -⟩ :=
    transfer_commit arepo trepo txn_id from_id to_id amount fa ta h0 hne hf ht hb
  have htxn : txn = (Transaction.init from_id to_id amount txn_id).mark_completed := by
    have := hok.symm.trans h1
    injection this
  constructor
  · rw [htxn]
    rfl
  · refine ⟨{ fa with balance := fa.balance - amount },
      { ta with balance := ta.balance + amount }, ?_, ?_, rfl, rfl, by ring⟩
    · show (TransferService.transfer arepo trepo txn_id from_id to_id amount).2.1.storage
        from_id = _
      rw [h2 from_id, if_neg (fun hh => hne (hh.trans htid)), if_pos hfid.symm]
    · show (TransferService.transfer arepo trepo txn_id from_id to_id amount).2.1.storage
        to_id = _
      rw [h2 to_id, if_pos htid.symm,
        if_neg (fun hh => hne (((htid.symm.trans hh).trans hfid).symm))]

/-- Witness for C1: transferring 300 from A (1000) to B (500) completes and
conserves the 1500 total. -/
theorem transfer_conservation_witness :
    ("acc_a" : String) ≠ "acc_b" ∧
    sampleRepoAB.find_by_id "acc_a" = some sampleA ∧ sampleA.id = "acc_a" ∧
    sampleRepoAB.find_by_id "acc_b" = some sampleB ∧ sampleB.id = "acc_b" ∧
    (TransferService.transfer sampleRepoAB emptyTransactionRepo "txn_1" "acc_a" "acc_b" 300).1 =
      Except.ok ((Transaction.init "acc_a" "acc_b" 300 "txn_1").mark_completed) ∧
    (((Transaction.init "acc_a" "acc_b" 300 "txn_1").mark_completed).status =
        TransactionStatus.completed ∧
      ∃ fa' ta' : Account,
        (TransferService.transfer sampleRepoAB emptyTransactionRepo
          "txn_1" "acc_a" "acc_b" 300).2.1.find_by_id "acc_a" = some fa' ∧
        (TransferService.transfer sampleRepoAB emptyTransactionRepo
          "txn_1" "acc_a" "acc_b" 300).2.1.find_by_id "acc_b" = some ta' ∧
        fa'.balance = sampleA.balance - 300 ∧
        ta'.balance = sampleB.balance + 300 ∧
        fa'.balance + ta'.balance = sampleA.balance + sampleB.balance) :=
  ⟨by decide, rfl, rfl, rfl, rfl, rfl,
    transfer_conservation sampleRepoAB emptyTransactionRepo "txn_1" "acc_a" "acc_b" 300
      sampleA sampleB ((Transaction.init "acc_a" "acc_b" 300 "txn_1").mark_completed)
      (by decide) rfl rfl rfl rfl rfl⟩

/-- C2: with a positive 2-decimal amount, distinct ids and both accounts
stored, the call fails with `InsufficientFunds` iff the source balance is
strictly below `amount`; in particular an exact-balance transfer completes
and leaves the source balance 0. -/
theorem insufficient_iff_balance_lt (arepo : InMemoryAccountRepository)
    (trepo : InMemoryTransactionRepository) (txn_id from_id to_id : String)
    (amount : ℚ) (fa ta : Account)
    (hpos : 0 < amount) (_hs : scale2 amount) (hne : from_id ≠ to_id)
    (hf : arepo.find_by_id from_id = some fa) (hfid : fa.id = from_id)
    (ht : arepo.find_by_id to_id = some ta) (htid : ta.id = to_id) :
    ((∃ msg, (TransferService.transfer arepo trepo txn_id from_id to_id amount).1 =
        Except.error (Err.insufficientFunds msg)) ↔ fa.balance < amount) ∧
    (fa.balance = amount →
      ∃ txn fa' : _,
        (TransferService.transfer arepo trepo txn_id from_id to_id amount).1 =
          Except.ok txn ∧
        txn.status = TransactionStatus.completed ∧
        (TransferService.transfer arepo trepo txn_id from_id to_id amount).2.1.find_by_id
          from_id = some fa' ∧
        fa'.balance = 0) := by
  have h0 : ¬ amount ≤ 0 := not_le.mpr hpos
  constructor
  · constructor
    · rintro ⟨msg, hmsg⟩
      by_contra hb
      obtain ⟨h1, -, -⟩ :=
        transfer_commit arepo trepo txn_id from_id to_id amount fa ta h0 hne hf ht hb
      rw [hmsg] at h1
      exact Except.noConfusion h1
    · intro hb
      exact ⟨"Account " ++ fa.id ++ " has insufficient balance",
        by rw [transfer_insufficient arepo trepo txn_id from_id to_id amount fa ta h0 hne hf ht hb]⟩
  · intro hbe
    have hb : ¬ fa.balance < amount := by rw [hbe]; exact lt_irrefl amount
    obtain ⟨h1, h2, -⟩ :=
      transfer_commit arepo trepo txn_id from_id to_id amount fa ta h0 hne hf ht hb
    refine ⟨(Transaction.init from_id to_id amount txn_id).mark_completed,
      { fa with balance := fa.balance - amount }, h1, rfl, ?_, ?_⟩
    · show (TransferService.transfer arepo trepo txn_id from_id to_id amount).2.1.storage
        from_id = _
      rw [h2 from_id, if_neg (fun hh => hne (hh.trans htid)), if_pos hfid.symm]
    · show fa.balance - amount = 0
      rw [hbe]
      ring

/-- Witness for C2: transferring the exact balance 500 out of an account
with balance 500 is not an `InsufficientFunds` failure and completes with
source balance 0 (spec scenario 5). -/
theorem insufficient_iff_balance_lt_witness :
    (0 : ℚ) < 500 ∧ scale2 500 ∧ ("acc_b" : String) ≠ "acc_a" ∧
    sampleRepoAB.find_by_id "acc_b" = some sampleB ∧ sampleB.id = "acc_b" ∧
    sampleRepoAB.find_by_id "acc_a" = some sampleA ∧ sampleA.id = "acc_a" ∧
    ((¬ ∃ msg, (TransferService.transfer sampleRepoAB emptyTransactionRepo
        "txn_1" "acc_b" "acc_a" 500).1 = Except.error (Err.insufficientFunds msg)) ∧
      ∃ txn fa' : _,
        (TransferService.transfer sampleRepoAB emptyTransactionRepo
          "txn_1" "acc_b" "acc_a" 500).1 = Except.ok txn ∧
        txn.status = TransactionStatus.completed ∧
        (TransferService.transfer sampleRepoAB emptyTransactionRepo
          "txn_1" "acc_b" "acc_a" 500).2.1.find_by_id "acc_b" = some fa' ∧
        fa'.balance = 0) := by
  have h := insufficient_iff_balance_lt sampleRepoAB emptyTransactionRepo
    "txn_1" "acc_b" "acc_a" 500 sampleB sampleA
    (by norm_num) (by norm_num [scale2]) (by decide) rfl rfl rfl rfl
  refine ⟨by norm_num, by norm_num [scale2], by decide, rfl, rfl, rfl, rfl,
    fun hc => absurd (h.1.mp hc) ?_, h.2 ?_⟩
  · show ¬ sampleB.balance < 500
    norm_num [sampleB]
  · show sampleB.balance = 500
    norm_num [sampleB]

/-- C3: whenever `TransferService.transfer` fails with any error, the
account store and the transaction store are exactly as before the call, and
on the insufficient-funds path of `_execute_transfer` the transaction
object carried out with the exception is marked failed with message
"Insufficient funds" (and, the stores being unchanged, is never persisted). -/
theorem failed_transfer_mutates_nothing (arepo : InMemoryAccountRepository)
    (trepo : InMemoryTransactionRepository) (txn_id from_id to_id : String)
    (amount : ℚ) (e : Err)
    (herr : (TransferService.transfer arepo trepo txn_id from_id to_id amount).1 =
      Except.error e) :
    (TransferService.transfer arepo trepo txn_id from_id to_id amount).2.1 = arepo ∧
    (TransferService.transfer arepo trepo txn_id from_id to_id amount).2.2 = trepo ∧
    ∀ (repo2 : InMemoryAccountRepository) (fa ta : Account) (t : Transaction)
      (e2 : Err) (t' : Transaction),
      TransferService.execute_transfer repo2 fa ta amount t = Except.error (e2, t') →
      t'.status = TransactionStatus.failed ∧
      t'.error_message = some "Insufficient funds" := by
  have hmark : ∀ (repo2 : InMemoryAccountRepository) (fa ta : Account) (t : Transaction)
      (e2 : Err) (t' : Transaction),
      TransferService.execute_transfer repo2 fa ta amount t = Except.error (e2, t') →
      t'.status = TransactionStatus.failed ∧
      t'.error_message = some "Insufficient funds" := by
    intro repo2 fa ta t e2 t' hstep
    unfold TransferService.execute_transfer at hstep
    by_cases hbb : fa.balance < amount
    · rw [if_pos hbb] at hstep
      injection hstep with h
      injection h with h1 h2
      rw [← h2]
      exact ⟨rfl, rfl⟩
    · rw [if_neg hbb] at hstep
      exact Except.noConfusion hstep
  have hstores :
      (TransferService.transfer arepo trepo txn_id from_id to_id amount).2.1 = arepo ∧
      (TransferService.transfer arepo trepo txn_id from_id to_id amount).2.2 = trepo := by
    by_cases h0 : amount ≤ 0
    · rw [transfer_nonpositive_amount arepo trepo txn_id from_id to_id amount h0]
      exact ⟨rfl, rfl⟩
    by_cases heq : from_id = to_id
    · rw [transfer_same_account arepo trepo txn_id from_id to_id amount h0 heq]
      exact ⟨rfl, rfl⟩
    cases hf : arepo.find_by_id from_id with
    | none =>
      rw [transfer_from_missing arepo trepo txn_id from_id to_id amount h0 heq hf]
      exact ⟨rfl, rfl⟩
    | some fa =>
      cases ht : arepo.find_by_id to_id with
      | none =>
        rw [transfer_to_missing arepo trepo txn_id from_id to_id amount fa h0 heq hf ht]
        exact ⟨rfl, rfl⟩
      | some ta =>
        by_cases hb : fa.balance < amount
        · rw [transfer_insufficient arepo trepo txn_id from_id to_id amount fa ta h0 heq hf ht hb]
          exact ⟨rfl, rfl⟩
        · obtain ⟨h1, -, -⟩ :=
            transfer_commit arepo trepo txn_id from_id to_id amount fa ta h0 heq hf ht hb
          rw [herr] at h1
          exact Except.noConfusion h1
  exact ⟨hstores.1, hstores.2, hmark⟩

/-- Witness for C3: an insufficient-funds failure (600 out of the
500-balance account B) leaves both stores exactly as they were. -/
theorem failed_transfer_mutates_nothing_witness :
    (TransferService.transfer sampleRepoAB emptyTransactionRepo
      "txn_1" "acc_b" "acc_a" 600).1 =
      Except.error (Err.insufficientFunds "Account acc_b has insufficient balance") ∧
    ((TransferService.transfer sampleRepoAB emptyTransactionRepo
        "txn_1" "acc_b" "acc_a" 600).2.1 = sampleRepoAB ∧
      (TransferService.transfer sampleRepoAB emptyTransactionRepo
        "txn_1" "acc_b" "acc_a" 600).2.2 = emptyTransactionRepo ∧
      ∀ (repo2 : InMemoryAccountRepository) (fa ta : Account) (t : Transaction)
        (e2 : Err) (t' : Transaction),
        TransferService.execute_transfer repo2 fa ta 600 t = Except.error (e2, t') →
        t'.status = TransactionStatus.failed ∧
        t'.error_message = some "Insufficient funds") :=
  ⟨rfl, failed_transfer_mutates_nothing sampleRepoAB emptyTransactionRepo
    "txn_1" "acc_b" "acc_a" 600
    (Err.insufficientFunds "Account acc_b has insufficient balance") rfl⟩

/-- C4 (code-bug evidence): the code rejects a self-transfer outright.  On
the exact input of the repository's own test `test_transfer_to_self`
(account with balance 1000, `transfer(A, A, 100)`), the call raises
`InvalidAmountException "Cannot transfer to same account"` instead of
returning the completed no-op transaction the test asserts; the balance is
left at 1000 and nothing is persisted. -/
theorem self_transfer_rejected :
    (TransferService.transfer sampleRepoA emptyTransactionRepo
      "txn_1" "acc_a" "acc_a" 100).1 =
      Except.error (Err.invalidAmount "Cannot transfer to same account") ∧
    (TransferService.transfer sampleRepoA emptyTransactionRepo
      "txn_1" "acc_a" "acc_a" 100).2.1.find_by_id "acc_a" = some sampleA ∧
    (TransferService.transfer sampleRepoA emptyTransactionRepo
      "txn_1" "acc_a" "acc_a" 100).2.2.find_by_id "txn_1" = none :=
  ⟨rfl, rfl, rfl⟩

/-- C5: on two distinct accounts, `_execute_transfer` acquires the lock of
the lexicographically smaller id first and the other second (whichever of
the two is the source), releases them in strict reverse acquisition order on
both exit paths of the critical section (normal return and raise), and no
lock remains held afterwards. -/
theorem execute_transfer_lock_discipline (from_account to_account : Account)
    (body_raises : Bool) (hne : from_account.id ≠ to_account.id) :
    TransferService.execute_transfer_lock_trace from_account to_account body_raises =
      [LockEvent.acquire (min from_account.id to_account.id),
       LockEvent.acquire (max from_account.id to_account.id),
       LockEvent.release (max from_account.id to_account.id),
       LockEvent.release (min from_account.id to_account.id)] ∧
    min from_account.id to_account.id < max from_account.id to_account.id ∧
    locksHeldAfter
      (TransferService.execute_transfer_lock_trace from_account to_account body_raises)
      = [] := by
  rcases lt_or_gt_of_ne hne with hlt | hgt
  · have hmin : min from_account.id to_account.id = from_account.id := min_eq_left hlt.le
    have hmax : max from_account.id to_account.id = to_account.id := max_eq_right hlt.le
    refine ⟨?_, ?_, ?_⟩
    · simp only [TransferService.execute_transfer_lock_trace, if_pos hlt, hmin, hmax]
      rfl
    · rw [hmin, hmax]
      exact hlt
    · simp [TransferService.execute_transfer_lock_trace, locksHeldAfter]
  · have hlt' : to_account.id < from_account.id := hgt
    have hmin : min from_account.id to_account.id = to_account.id := min_eq_right hlt'.le
    have hmax : max from_account.id to_account.id = from_account.id := max_eq_left hlt'.le
    have hnlt : ¬ from_account.id < to_account.id := not_lt.mpr hlt'.le
    refine ⟨?_, ?_, ?_⟩
    · simp only [TransferService.execute_transfer_lock_trace, if_neg hnlt, hmin, hmax]
      rfl
    · rw [hmin, hmax]
      exact hlt'
    · simp [TransferService.execute_transfer_lock_trace, locksHeldAfter]

/-- Witness for C5: on accounts `acc_a` < `acc_b` with `acc_b` as the
source, the smaller id `acc_a` is still locked first and everything is
released in reverse order. -/
theorem execute_transfer_lock_discipline_witness :
    sampleB.id ≠ sampleA.id ∧
    (TransferService.execute_transfer_lock_trace sampleB sampleA true =
      [LockEvent.acquire (min sampleB.id sampleA.id),
       LockEvent.acquire (max sampleB.id sampleA.id),
       LockEvent.release (max sampleB.id sampleA.id),
       LockEvent.release (min sampleB.id sampleA.id)] ∧
    min sampleB.id sampleA.id < max sampleB.id sampleA.id ∧
    locksHeldAfter (TransferService.execute_transfer_lock_trace sampleB sampleA true) = []) :=
  ⟨by decide, execute_transfer_lock_discipline sampleB sampleA true (by decide)⟩

/-- C6 counterexample: an amount of 0.001 (positive, three fractional
digits) is NOT rejected as `InvalidAmount`: with both accounts present and
funded, the transfer completes.  The two-decimal check exists only in the
API request schema, not in `TransferService.transfer`. -/
theorem overprecision_amount_not_rejected :
    ¬ scale2 (1 / 1000 : ℚ) ∧ (0 : ℚ) < 1 / 1000 ∧
    (TransferService.transfer sampleRepoAB emptyTransactionRepo
      "txn_1" "acc_a" "acc_b" (1 / 1000)).1 =
      Except.ok ((Transaction.init "acc_a" "acc_b" (1 / 1000) "txn_1").mark_completed) := by
  refine ⟨by norm_num [scale2], by norm_num, ?_⟩
  exact (transfer_commit sampleRepoAB emptyTransactionRepo "txn_1" "acc_a" "acc_b" (1 / 1000)
    sampleA sampleB (by norm_num) (by decide) rfl rfl (by norm_num [sampleA])).1

/-- C6 amended: for every `from_id`, `to_id` and `amount ≤ 0`, the call
fails with `InvalidAmount` ("Amount must be positive") for EVERY state of
the stores — i.e. before any account lookup — leaves the stores untouched,
and acquires no lock (the lock trace of the call is empty).  Amounts with
more than 2 fractional digits are not validated here (see the
counterexample). -/
theorem nonpositive_amount_validation (txn_id from_id to_id : String) (amount : ℚ)
    (h : amount ≤ 0) :
    (∀ (arepo : InMemoryAccountRepository) (trepo : InMemoryTransactionRepository),
      TransferService.transfer arepo trepo txn_id from_id to_id amount =
        (Except.error (Err.invalidAmount "Amount must be positive"), arepo, trepo)) ∧
    (∀ (arepo : InMemoryAccountRepository) (body_raises : Bool),
      TransferService.transfer_lock_trace arepo from_id to_id amount body_raises = []) := by
  refine ⟨fun arepo trepo =>
    transfer_nonpositive_amount arepo trepo txn_id from_id to_id amount h,
    fun arepo body_raises => ?_⟩
  unfold TransferService.transfer_lock_trace
  rw [if_pos h]

/-- Witness for the amended C6: a zero-amount transfer between two existing
funded accounts (spec scenario 3) fails with `InvalidAmount`, touches
nothing and locks nothing. -/
theorem nonpositive_amount_validation_witness :
    ((0 : ℚ) ≤ 0) ∧
    TransferService.transfer sampleRepoAB emptyTransactionRepo "txn_1" "acc_a" "acc_b" 0 =
      (Except.error (Err.invalidAmount "Amount must be positive"), sampleRepoAB,
        emptyTransactionRepo) ∧
    TransferService.transfer_lock_trace sampleRepoAB "acc_a" "acc_b" 0 true = [] :=
  ⟨le_refl 0,
    (nonpositive_amount_validation "txn_1" "acc_a" "acc_b" 0 (le_refl 0)).1
      sampleRepoAB emptyTransactionRepo,
    (nonpositive_amount_validation "txn_1" "acc_a" "acc_b" 0 (le_refl 0)).2
      sampleRepoAB true⟩

/-- C7 counterexample: an initial balance of 0.005 (three fractional
digits) is NOT rejected by `create_account`: the account is created, stored
and returned with balance 0.005.  The two-decimal check exists only in the
API request schema. -/
theorem overprecision_balance_not_rejected :
    ¬ scale2 (1 / 200 : ℚ) ∧ (0 : ℚ) ≤ 1 / 200 ∧
    ((AccountService.create_account emptyAccountRepo "acc_1" (1 / 200)).map
      (fun p => (p.1, p.2.find_by_id "acc_1"))) =
      Except.ok (({ id := "acc_1", balance := 1 / 200 } : Account),
        some ({ id := "acc_1", balance := 1 / 200 } : Account)) := by
  refine ⟨by norm_num [scale2], by norm_num, ?_⟩
  have h : ¬ (1 / 200 : ℚ) < 0 := by norm_num
  unfold AccountService.create_account Account.init
  rw [if_neg h, if_neg h]
  rfl

/-- C7 amended: `create_account` fails with the invalid-amount error
(`ValueError` in the code, same HTTP class as `InvalidAmount`) exactly when
`initial_balance < 0`; otherwise it constructs the account under the
generated id, stores it and returns it (`save` returning the very account).
Balances with more than 2 fractional digits are not rejected (see the
counterexample); uniqueness of the id is the generator's contract, modelled
by the `gen_id` input. -/
theorem create_account_validation (gen_id : String) (initial_balance : ℚ)
    (arepo : InMemoryAccountRepository) :
    (initial_balance < 0 →
      AccountService.create_account arepo gen_id initial_balance =
        Except.error (Err.invalidAmount "Initial balance cannot be negative")) ∧
    (0 ≤ initial_balance →
      AccountService.create_account arepo gen_id initial_balance =
        Except.ok (({ id := gen_id, balance := initial_balance } : Account),
          (arepo.save { id := gen_id, balance := initial_balance }).2) ∧
      (arepo.save { id := gen_id, balance := initial_balance }).2.find_by_id gen_id =
        some ({ id := gen_id, balance := initial_balance } : Account) ∧
      (arepo.save ({ id := gen_id, balance := initial_balance } : Account)).1 =
        ({ id := gen_id, balance := initial_balance } : Account)) := by
  constructor
  · intro hneg
    unfold AccountService.create_account
    rw [if_pos hneg]
  · intro hpos
    have h : ¬ initial_balance < 0 := not_lt.mpr hpos
    unfold AccountService.create_account Account.init
    rw [if_neg h, if_neg h]
    refine ⟨rfl, ?_, rfl⟩
    show (if gen_id = gen_id then _ else arepo.storage gen_id) = _
    rw [if_pos rfl]

/-- Witness for the amended C7: creating an account with balance 5 succeeds
and stores it; creating one with balance -3 fails with the invalid-amount
error. -/
theorem create_account_validation_witness :
    ((0 : ℚ) ≤ 5 ∧
      AccountService.create_account emptyAccountRepo "acc_1" 5 =
        Except.ok (({ id := "acc_1", balance := 5 } : Account),
          (emptyAccountRepo.save { id := "acc_1", balance := 5 }).2)) ∧
    ((-3 : ℚ) < 0 ∧
      AccountService.create_account emptyAccountRepo "acc_2" (-3) =
        Except.error (Err.invalidAmount "Initial balance cannot be negative")) :=
  ⟨⟨by norm_num, ((create_account_validation "acc_1" 5 emptyAccountRepo).2 (by norm_num)).1⟩,
    ⟨by norm_num, (create_account_validation "acc_2" (-3) emptyAccountRepo).1 (by norm_num)⟩⟩

/-- Unfolding of `save`: the stored map is updated at the account's id. -/
theorem save_storage (repo : InMemoryAccountRepository) (a : Account) (k : String) :
    (repo.save a).2.storage k = if k = a.id then some a else repo.storage k := rfl

/-- Every single core operation preserves non-negativity of all stored
balances. -/
theorem applyOp_preserves_nonneg (st : LedgerState) (op : CoreOp) (h : NonNeg st) :
    NonNeg (applyOp st op) := by
  cases op with
  | createAccount gen_id bal =>
    by_cases hneg : bal < 0
    · have hc : AccountService.create_account st.arepo gen_id bal =
          Except.error (Err.invalidAmount "Initial balance cannot be negative") := by
        unfold AccountService.create_account
        rw [if_pos hneg]
      simp only [applyOp, hc]
      exact h
    · have hc : AccountService.create_account st.arepo gen_id bal =
          Except.ok (st.arepo.save { id := gen_id, balance := bal }) := by
        unfold AccountService.create_account Account.init
        rw [if_neg hneg, if_neg hneg]
      simp only [applyOp, hc]
      intro k acct hk
      rw [save_storage] at hk
      by_cases hkk : k = gen_id
      · rw [if_pos (show k = ({ id := gen_id, balance := bal } : Account).id from hkk)] at hk
        injection hk with hh
        rw [← hh]
        exact not_lt.mp hneg
      · rw [if_neg (show ¬ k = ({ id := gen_id, balance := bal } : Account).id from hkk)] at hk
        exact h k acct hk
  | getAccount account_id =>
    exact h
  | updateBalance account_id new_balance =>
    by_cases hneg : new_balance < 0
    · have hc : AccountService.update_balance st.arepo account_id new_balance =
          Except.error (Err.invalidAmount "Balance cannot be negative") := by
        unfold AccountService.update_balance
        rw [if_pos hneg]
      simp only [applyOp, hc]
      exact h
    · cases hfind : st.arepo.find_by_id account_id with
      | none =>
        have hc : AccountService.update_balance st.arepo account_id new_balance =
            Except.error (Err.notFound ("Account " ++ account_id ++ " not found")) := by
          unfold AccountService.update_balance
          rw [if_neg hneg, hfind]
        simp only [applyOp, hc]
        exact h
      | some account =>
        have hc : AccountService.update_balance st.arepo account_id new_balance =
            Except.ok (st.arepo.save { account with balance := new_balance }) := by
          unfold AccountService.update_balance
          rw [if_neg hneg, hfind]
        simp only [applyOp, hc]
        intro k acct hk
        rw [save_storage] at hk
        by_cases hkk : k = account.id
        · rw [if_pos (show k = ({ account with balance := new_balance } : Account).id
              from hkk)] at hk
          injection hk with hh
          rw [← hh]
          exact not_lt.mp hneg
        · rw [if_neg (show ¬ k = ({ account with balance := new_balance } : Account).id
              from hkk)] at hk
          exact h k acct hk
  | doTransfer txn_id from_id to_id amount =>
    show NonNeg ⟨(TransferService.transfer st.arepo st.trepo txn_id from_id to_id amount).2.1,
      (TransferService.transfer st.arepo st.trepo txn_id from_id to_id amount).2.2⟩
    by_cases h0 : amount ≤ 0
    · intro k acct hk
      rw [transfer_nonpositive_amount st.arepo st.trepo txn_id from_id to_id amount h0] at hk
      exact h k acct hk
    by_cases heq : from_id = to_id
    · intro k acct hk
      rw [transfer_same_account st.arepo st.trepo txn_id from_id to_id amount h0 heq] at hk
      exact h k acct hk
    cases hf : st.arepo.find_by_id from_id with
    | none =>
      intro k acct hk
      rw [transfer_from_missing st.arepo st.trepo txn_id from_id to_id amount h0 heq hf] at hk
      exact h k acct hk
    | some fa =>
      cases ht : st.arepo.find_by_id to_id with
      | none =>
        intro k acct hk
        rw [transfer_to_missing st.arepo st.trepo txn_id from_id to_id amount fa
          h0 heq hf ht] at hk
        exact h k acct hk
      | some ta =>
        by_cases hb : fa.balance < amount
        · intro k acct hk
          rw [transfer_insufficient st.arepo st.trepo txn_id from_id to_id amount fa ta
            h0 heq hf ht hb] at hk
          exact h k acct hk
        · obtain ⟨-, h2, -⟩ := transfer_commit st.arepo st.trepo txn_id from_id to_id amount
            fa ta h0 heq hf ht hb
          intro k acct hk
          rw [h2 k] at hk
          have hfa : 0 ≤ fa.balance := h from_id fa hf
          have hta : 0 ≤ ta.balance := h to_id ta ht
          have hamt : 0 < amount := lt_of_not_le h0
          by_cases hk1 : k = ta.id
          · rw [if_pos hk1] at hk
            injection hk with hh
            rw [← hh]
            show 0 ≤ (if ta.id = fa.id then fa.balance - amount else ta.balance) + amount
            by_cases hali : ta.id = fa.id
            · rw [if_pos hali]
              linarith [not_lt.mp hb]
            · rw [if_neg hali]
              linarith
          · rw [if_neg hk1] at hk
            by_cases hk2 : k = fa.id
            · rw [if_pos hk2] at hk
              injection hk with hh
              rw [← hh]
              show 0 ≤ fa.balance - amount
              linarith [not_lt.mp hb]
            · rw [if_neg hk2] at hk
              exact h k acct hk

/-- C8: for every starting state whose stored balances are all
non-negative, running any sequence of core operations (`create_account`,
`get_account`, `update_balance`, `transfer`) leaves every stored balance
non-negative at every observable point between operations. -/
theorem balances_never_negative (st : LedgerState) (ops : List CoreOp) (h : NonNeg st) :
    NonNeg (ops.foldl applyOp st) := by
  induction ops generalizing st with
  | nil => exact h
  | cons op rest ih => exact ih (applyOp st op) (applyOp_preserves_nonneg st op h)

/-- Witness for C8: the empty state is non-negative, and so is the state
after creating two accounts and transferring between them (spec scenario
1 as an operation sequence). -/
theorem balances_never_negative_witness :
    NonNeg emptyState ∧
    NonNeg ([CoreOp.createAccount "acc_a" 1000, CoreOp.createAccount "acc_b" 500,
      CoreOp.doTransfer "txn_1" "acc_a" "acc_b" 300].foldl applyOp emptyState) :=
  have hemp : NonNeg emptyState := fun _ _ hk => Option.noConfusion hk
  ⟨hemp, balances_never_negative emptyState
    [CoreOp.createAccount "acc_a" 1000, CoreOp.createAccount "acc_b" 500,
      CoreOp.doTransfer "txn_1" "acc_a" "acc_b" 300] hemp⟩

/-- One interleaving step preserves mutual exclusion on the first lock. -/
theorem lockstep_preserves_mutex :
    ∀ s t : TwoTransferState, MutexInv s → LockStep s t → MutexInv t := by decide

/-- Every reachable state of the two-transfer system satisfies mutual
exclusion on the first lock. -/
theorem mutex_reachable (s : TwoTransferState) (h : ReachableLockState s) : MutexInv s := by
  induction h with
  | refl => decide
  | tail _ hbc ih => exact lockstep_preserves_mutex _ _ ih hbc

/-- Under mutual exclusion, every state is final or has an enabled step. -/
theorem lock_progress :
    ∀ s : TwoTransferState, MutexInv s → s = finalState ∨ ∃ t, LockStep s t := by decide

/-- Each interleaving step advances the combined program counter by one. -/
theorem lockstep_measure :
    ∀ s t : TwoTransferState, LockStep s t → s.1.val + s.2.val + 1 = t.1.val + t.2.val := by
  decide

/-- C9: two threads concurrently running `Transfer(A,B,x)` and
`Transfer(B,A,y)` on the same pair of distinct accounts both always
terminate under every interleaving: no reachable state of the lock protocol
is stuck before both threads finish (deadlock freedom, because both acquire
the two locks in the same ascending-id order), and no infinite execution
exists (each step strictly advances a bounded measure). -/
theorem opposite_transfers_terminate :
    (∀ s : TwoTransferState, ReachableLockState s →
      s = finalState ∨ ∃ t, LockStep s t) ∧
    ∀ f : ℕ → TwoTransferState, f 0 = initState →
      (∀ n, LockStep (f n) (f (n + 1))) → False := by
  constructor
  · intro s hs
    exact lock_progress s (mutex_reachable s hs)
  · intro f h0 hstep
    have hm : ∀ n, (f n).1.val + (f n).2.val = n := by
      intro n
      induction n with
      | zero => rw [h0]; rfl
      | succ n ih =>
        have := lockstep_measure (f n) (f (n + 1)) (hstep n)
        omega
    have h9 := hm 9
    have b1 : (f 9).1.val < 5 := (f 9).1.isLt
    have b2 : (f 9).2.val < 5 := (f 9).2.isLt
    omega

/-- Witness for C9: the initial state is reachable and, being non-final,
has an enabled step. -/
theorem opposite_transfers_terminate_witness :
    initState = finalState ∨ ∃ t, LockStep initState t :=
  opposite_transfers_terminate.1 initState Relation.ReflTransGen.refl

/-- C10: for both in-memory repositories, `save` returns the very entity
passed in; immediately after `save`, `find_by_id` on the entity's id
returns that entity and (for the account repository) `exists` returns
true; on the empty repositories every lookup is `none`; and `exists` agrees
with `find_by_id` being non-`none` on every store and id. -/
theorem repository_contract (arepo : InMemoryAccountRepository)
    (trepo : InMemoryTransactionRepository) (a : Account) (t : Transaction)
    (idq : String) :
    (arepo.save a).1 = a ∧
    (arepo.save a).2.find_by_id a.id = some a ∧
    (arepo.save a).2.exists a.id = true ∧
    (trepo.save t).1 = t ∧
    (trepo.save t).2.find_by_id t.id = some t ∧
    arepo.exists idq = (arepo.find_by_id idq).isSome ∧
    (arepo.find_by_id idq = none → arepo.exists idq = false) ∧
    emptyAccountRepo.find_by_id idq = none ∧
    emptyTransactionRepo.find_by_id idq = none := by
  refine ⟨rfl, ?_, ?_, rfl, ?_, rfl, ?_, rfl, rfl⟩
  · show (if a.id = a.id then some a else arepo.storage a.id) = some a
    rw [if_pos rfl]
  · show (if a.id = a.id then some a else arepo.storage a.id).isSome = true
    rw [if_pos rfl]
    rfl
  · show (if t.id = t.id then some t else trepo.storage t.id) = some t
    rw [if_pos rfl]
  · intro hn
    show (arepo.storage idq).isSome = false
    rw [show arepo.storage idq = none from hn]
    rfl

/-- Witness for C10: on concrete stores, an id that was never saved is
reported absent by both `find_by_id` and `exists`, and saving then finding
returns the entity. -/
theorem repository_contract_witness :
    sampleRepoA.find_by_id "missing" = none ∧
    sampleRepoA.exists "missing" = false ∧
    (sampleRepoA.save sampleB).1 = sampleB ∧
    (sampleRepoA.save sampleB).2.find_by_id "acc_b" = some sampleB :=
  have h := repository_contract sampleRepoA emptyTransactionRepo sampleB
    (Transaction.init "acc_a" "acc_b" 300 "txn_1") "missing"
  ⟨rfl, h.2.2.2.2.2.2.1 rfl, h.1, h.2.1⟩

end SimpleLedger
